import Mathlib

/-!
Shallow embedding of the T-C_Guard policy analyzer
(`src/services/PolicyAnalyzer.ts`): the pattern taxonomy, the summarizer,
the red-flag detector and the scorer, together with proofs of the
behavioural properties stated in the specification.

JavaScript regular expressions are embedded by a small backtracking
matcher covering exactly the constructs the source patterns use:
case-insensitive literals, character classes, `\s+`, `.*`, alternation,
optional groups, word boundaries and one negative lookahead.  JavaScript
numbers are embedded as `ℚ` (the score arithmetic is exact on all
reachable values), and the nondeterministic `Date.now()/Math.random()`
identifier suffixes are passed in explicitly as an oracle argument.
-/

namespace TCGuard

/-- JavaScript `\s` whitespace class (the code points the source text can
contain). -/
def wsChar (c : Char) : Bool :=
  c == ' ' || c == '\t' || c == '\n' || c == '\r' || c == '\x0b' || c == '\x0c'

/-- JavaScript `.` without the `s` flag: any character except line
terminators. -/
def dotChar (c : Char) : Bool :=
  !(c == '\n' || c == '\r' || c == '\u2028' || c == '\u2029')

/-- JavaScript `\w` word characters, used by the `\b` word boundary. -/
def isWordChar (c : Char) : Bool :=
  c.isAlphanum || c == '_'

/-- Abstract syntax of the regular-expression fragment used by the
analyzer's patterns. -/
inductive RE where
  | eps : RE
  | lit : Char → RE
  | cls : (Char → Bool) → RE
  | seq : RE → RE → RE
  | alt : RE → RE → RE
  | starCls : (Char → Bool) → RE
  | wordB : RE
  | negLook : RE → RE

/-- A literal string pattern (each character matched case-insensitively,
mirroring the `i` flag every source pattern carries). -/
def litStr (s : String) : RE :=
  s.toList.foldr (fun c r => RE.seq (RE.lit c) r) RE.eps

/-- Concatenation of a list of patterns. -/
def reCat (l : List RE) : RE :=
  l.foldr RE.seq RE.eps

/-- Alternation of a non-empty list of patterns. -/
def altList : List RE → RE
  | [] => RE.eps
  | [r] => r
  | r :: rs => RE.alt r (altList rs)

/-- JavaScript `.*`. -/
def dotStar : RE := RE.starCls dotChar

/-- JavaScript `\s+`. -/
def wsPlus : RE := RE.seq (RE.cls wsChar) (RE.starCls wsChar)

/-- JavaScript `(...)?`. -/
def reOpt (r : RE) : RE := RE.alt r RE.eps

/-- Greedy Kleene star over a character class, in continuation style:
consume as many class characters as possible, backtracking into the
continuation `k`.  The extra `Option Char` argument carries the previous
character for word-boundary tests. -/
def starClsM (f : Char → Bool)
    (k : Option Char → List Char → Option (List Char)) :
    Option Char → List Char → Option (List Char)
  | prev, [] => k prev []
  | prev, c :: rest =>
    (if f c then starClsM f k (some c) rest else none) <|> k prev (c :: rest)

/-- Backtracking matcher.  `matchRE r prev s k` tries to match `r` at the
start of `s` (with `prev` the character just before `s`, for `\b`) and
passes the remaining suffix to the continuation `k`; the first successful
alternative wins, exactly as in a JavaScript backtracking engine. -/
def matchRE : RE → Option Char → List Char →
    (Option Char → List Char → Option (List Char)) → Option (List Char)
  | RE.eps, prev, s, k => k prev s
  | RE.lit c, _, s, k =>
    match s with
    | [] => none
    | d :: rest => if d.toLower == c.toLower then k (some d) rest else none
  | RE.cls f, _, s, k =>
    match s with
    | [] => none
    | d :: rest => if f d then k (some d) rest else none
  | RE.seq a b, prev, s, k => matchRE a prev s (fun p2 s2 => matchRE b p2 s2 k)
  | RE.alt a b, prev, s, k => matchRE a prev s k <|> matchRE b prev s k
  | RE.starCls f, prev, s, k => starClsM f k prev s
  | RE.wordB, prev, s, k =>
    let before := match prev with
      | none => false
      | some c => isWordChar c
    let after := match s with
      | [] => false
      | c :: _ => isWordChar c
    if before != after then k prev s else none
  | RE.negLook r, prev, s, k =>
    match matchRE r prev s (fun _ s2 => some s2) with
    | some _ => none
    | none => k prev s

/-- Leftmost search: try a match at every start position in turn and
report the start index and matched length of the first success (the
semantics of `RegExp.prototype.exec`). -/
def searchFrom (r : RE) (prev : Option Char) (s : List Char) (i : Nat) :
    Option (Nat × Nat) :=
  match matchRE r prev s (fun _ rest => some rest) with
  | some rest => some (i, s.length - rest.length)
  | none =>
    match s with
    | [] => none
    | c :: rest => searchFrom r (some c) rest (i + 1)

/-- JavaScript `pattern.test(content)`. -/
def reTest (r : RE) (content : String) : Bool :=
  (searchFrom r none content.toList 0).isSome

/-- JavaScript `patterns.some(p => p.test(content))`. -/
def reTestAny (ps : List RE) (content : String) : Bool :=
  ps.any (fun p => reTest p content)

/-- An ASCII apostrophe, kept out of string literals. -/
def apos : String := String.mk [Char.ofNat 39]

/-- The pattern taxonomy: the `Record<string, RegExp[]>` returned by
`initializePatterns`, one field per category. -/
structure PatternTaxonomy where
  dataSelling : List RE
  arbitration : List RE
  license : List RE
  retention : List RE
  fingerprinting : List RE
  children : List RE
  rights : List RE
  security : List RE
  sharing : List RE
  collection : List RE

/-- Transcription of `initializePatterns`, pattern for pattern, in source
order. -/
def initializePatterns : PatternTaxonomy where
  dataSelling := [
    reCat [RE.wordB, altList [litStr "we", litStr "may", litStr "will", litStr "can"],
           wsPlus, litStr "sell", wsPlus, altList [litStr "your", litStr "personal"],
           wsPlus, litStr "data"],
    reCat [litStr "monetize", wsPlus, reOpt (RE.seq (litStr "your") wsPlus), litStr "data"],
    reCat [litStr "sell", wsPlus, dotStar, litStr "information", dotStar,
           litStr "valuable", wsPlus, litStr "consideration"],
    reCat [litStr "share", dotStar, litStr "third", wsPlus, litStr "parties", dotStar,
           litStr "advertising", dotStar, litStr "revenue"],
    reCat [litStr "data", wsPlus, litStr "broker"],
    reCat [litStr "sell", dotStar, litStr "information", dotStar, litStr "marketing",
           dotStar, litStr "purposes", RE.negLook (RE.seq wsPlus (litStr "without"))]]
  arbitration := [
    litStr "binding arbitration",
    reCat [litStr "waive", dotStar, litStr "right", dotStar, litStr "jury"],
    litStr "class action waiver",
    reCat [litStr "dispute resolution", dotStar, litStr "binding"],
    litStr "arbitration agreement",
    reCat [litStr "waive", dotStar, litStr "class", dotStar, litStr "action"]]
  license := [
    reCat [litStr "perpetual", dotStar, litStr "license"],
    reCat [litStr "irrevocable", dotStar, litStr "rights"],
    reCat [litStr "royalty-free", dotStar, litStr "sublicense"],
    reCat [litStr "worldwide", dotStar, litStr "license", dotStar, litStr "content"],
    reCat [litStr "perpetual", dotStar, litStr "irrevocable"],
    reCat [litStr "sublicensable", dotStar, litStr "transferable"]]
  retention := [
    litStr "retain indefinitely",
    reCat [litStr "keep", dotStar, litStr "data", dotStar, litStr "forever"],
    litStr "no retention period",
    reCat [litStr "retain", dotStar, litStr "as long as"],
    reCat [litStr "indefinite", dotStar, litStr "retention"]]
  fingerprinting := [
    litStr "device fingerprint",
    litStr "canvas fingerprint",
    litStr "unique identifier",
    reCat [litStr "cross", dotStar, litStr "site tracking"],
    litStr "browser fingerprint",
    reCat [litStr "tracking", dotStar, litStr "pixels"]]
  children := [
    reCat [litStr "under ", altList [litStr "13", litStr "16"]],
    reCat [litStr "child", dotStar, litStr "consent"],
    litStr "COPPA",
    litStr "parental consent",
    reCat [litStr "children", dotStar, litStr "privacy"],
    reCat [litStr "minors", dotStar, litStr "data"]]
  rights := [
    litStr "right to delete",
    litStr "data portability",
    reCat [litStr "access", dotStar, litStr "data"],
    reCat [litStr "opt", dotStar, litStr "out"],
    reCat [litStr "delete", dotStar, litStr "account"],
    litStr "data subject rights",
    litStr "GDPR",
    litStr "CCPA"]
  security := [
    litStr "encrypt",
    litStr "secure",
    litStr "protection",
    RE.alt (litStr "SSL") (litStr "TLS"),
    litStr "security measures",
    litStr "data protection"]
  sharing := [
    reCat [litStr "share", dotStar, litStr "third parties"],
    reCat [litStr "disclose", dotStar, litStr "partners"],
    reCat [litStr "third", dotStar, litStr "party", dotStar, litStr "services"],
    litStr "business partners",
    litStr "service providers"]
  collection := [
    reCat [litStr "collect", dotStar, litStr "information"],
    reCat [litStr "gather", dotStar, litStr "data"],
    reCat [litStr "obtain", dotStar, litStr "personal"],
    litStr "we collect",
    reCat [litStr "information", dotStar, litStr "collect"]]

/-- The scorer's positive-indicator pattern `/GDPR|CCPA|data protection/i`. -/
def gdprCcpaRe : RE :=
  altList [litStr "GDPR", litStr "CCPA", litStr "data protection"]

/-- The scorer's positive-indicator pattern
`/opt.*out|unsubscribe|delete.*account/i`. -/
def optOutRe : RE :=
  altList [reCat [litStr "opt", dotStar, litStr "out"],
           litStr "unsubscribe",
           reCat [litStr "delete", dotStar, litStr "account"]]

/-- The red-flag detector's explicit-denial override pattern
`/do not sell|will not sell|never sell|don't sell/i`. -/
def explicitDenialRe : RE :=
  altList [litStr "do not sell", litStr "will not sell", litStr "never sell",
           litStr ("don" ++ apos ++ "t sell")]

/-- `needle.isPrefixOf hay`, comparing characters exactly. -/
def isPrefixL : List Char → List Char → Bool
  | [], _ => true
  | _ :: _, [] => false
  | a :: as, b :: bs => a == b && isPrefixL as bs

/-- Substring containment over character lists. -/
def containsL (needle : List Char) : List Char → Bool
  | [] => isPrefixL needle []
  | c :: t => isPrefixL needle (c :: t) || containsL needle t

/-- JavaScript `hay.includes(needle)`. -/
def strIncludes (hay needle : String) : Bool :=
  containsL needle.toList hay.toList

/-- JavaScript `s.toLowerCase()` (character-wise, which agrees on the
ASCII source text). -/
def strToLower (s : String) : String :=
  String.mk (s.data.map Char.toLower)

/-- The sentence-boundary class of the summarizer's split pattern
`/[.!?]+/`. -/
def isSentEnd (c : Char) : Bool :=
  c == '.' || c == '!' || c == '?'

mutual

/-- Worker for `content.split(/[.!?]+/)`: `cur` is the current segment in
reverse. -/
def splitSentAux (cur : List Char) : List Char → List String
  | [] => [String.mk cur.reverse]
  | c :: t =>
    if isSentEnd c then String.mk cur.reverse :: splitSkipRun t
    else splitSentAux (c :: cur) t

/-- Consume the rest of a maximal run of sentence enders, then resume
segment collection (a trailing run still yields a final empty segment,
as `String.prototype.split` does). -/
def splitSkipRun : List Char → List String
  | [] => [""]
  | c :: t =>
    if isSentEnd c then splitSkipRun t
    else splitSentAux [c] t

end

/-- JavaScript `content.split(/[.!?]+/)`: segments between maximal runs of
sentence enders. -/
def splitSentences (content : String) : List String :=
  splitSentAux [] content.toList

/-- Strip a word from the front of `s`, comparing case-insensitively
(the replacement patterns carry the `i` flag); returns the remainder. -/
def stripWordCI : List Char → List Char → Option (List Char)
  | [], s => some s
  | _ :: _, [] => none
  | w :: ws, c :: cs => if c.toLower == w.toLower then stripWordCI ws cs else none

/-- Try each replacement word at the current position; a candidate is kept
only when the character after it is not a word character (the closing
`\b`; every source word starts and ends with a letter, so the opening
boundary is checked by the caller).  Returns the remainder and the last
character of the consumed word. -/
def tryReplWords (s : List Char) : List (List Char) → Option (List Char × Char)
  | [] => none
  | w :: ws =>
    match stripWordCI w s, w.getLast? with
    | some rest, some lastc =>
      if (match rest with
          | [] => true
          | d :: _ => !isWordChar d) then
        some (rest, lastc)
      else tryReplWords s ws
    | _, _ => tryReplWords s ws

/-- JavaScript `text.replace(/\b(w1|w2|...)\b/gi, repl)` for a list of
literal words: global, left-to-right, word-boundary delimited,
case-insensitive.  Recursion is by fuel; the caller supplies fuel above
the text length, which is ample since every step consumes at least one
character. -/
def replaceWordsB (words : List (List Char)) (repl : List Char) :
    Nat → Option Char → List Char → List Char
  | 0, _, _ => []
  | _ + 1, _, [] => []
  | fuel + 1, prev, c :: cs =>
    let boundary := match prev with
      | none => true
      | some p => !isWordChar p
    if boundary then
      match tryReplWords (c :: cs) words with
      | some (rest, lastc) => repl ++ replaceWordsB words repl fuel (some lastc) rest
      | none => c :: replaceWordsB words repl fuel (some c) cs
    else c :: replaceWordsB words repl fuel (some c) cs

/-- One step of `text.replace(/\s+/g, ' ')`: each maximal whitespace run
becomes a single space. -/
def collapseWs : List Char → List Char
  | [] => []
  | [c] => if wsChar c then [' '] else [c]
  | a :: b :: t =>
    if wsChar a && wsChar b then collapseWs (b :: t)
    else (if wsChar a then ' ' else a) :: collapseWs (b :: t)

/-- String-level wrapper for `replaceWordsB`. -/
def replaceWords (words : List String) (repl : String) (text : String) : String :=
  String.mk (replaceWordsB (words.map String.toList) repl.toList
    (text.length + 1) none text.toList)

/-- Transcription of `simplifyLanguage`: the four legalese replacements,
whitespace collapsing, trimming, and truncation to 200 characters with an
ellipsis when the (original) text is longer than 200 characters. -/
def simplifyLanguage (text : String) : String :=
  let s1 := replaceWords ["shall", "hereby", "wherein", "whereas"] "" text
  let s2 := replaceWords ["such", "aforementioned"] "this" s1
  let s3 := replaceWords ["pursuant to"] "according to" s2
  let s4 := replaceWords ["in accordance with"] "following" s3
  let s5 := (String.mk (collapseWs s4.toList)).trim
  String.mk (s5.toList.take 200) ++ (if 200 < text.length then "..." else "")

/-- `SummaryItem` (the source also stores the sort `priority` on each
item). -/
structure SummaryItem where
  id : String
  text : String
  priority : Nat
  evidence : List (List Nat)
deriving Repr, DecidableEq

/-- `RedFlag`. -/
structure RedFlag where
  id : String
  title : String
  severity : Nat
  evidence : String
  whatItMeans : String
deriving Repr, DecidableEq

/-- `Scores`: the nine dimensions, the rounded aggregate and the
confidence. -/
structure Scores where
  collection : Int
  sharingSelling : Int
  rights : Int
  retention : Int
  dispute : Int
  license : Int
  tracking : Int
  children : Int
  security : Int
  aggregate : Int
  confidence : ℚ
deriving Repr, DecidableEq

/-- `AnalysisResult`. -/
structure AnalysisResult where
  url : String
  retrievedAt : String
  contentHash : String
  language : String
  summary : List SummaryItem
  redFlags : List RedFlag
  scores : Scores

/-- `PolicyContent` (the `content` field is optional in the source type;
`analyze` defaults it to the empty string). -/
structure PolicyContent where
  isPolicyPage : Bool
  content : Option String
  title : Option String
  extractedAt : String

/-- One entry of the summarizer's `importantKeywords` table. -/
structure SummaryKeyword where
  terms : List String
  id : String
  priority : Nat

/-- The summarizer's keyword table, in source order. -/
def importantKeywords : List SummaryKeyword := [
  ⟨["collect", "gather", "obtain"], "collection", 1⟩,
  ⟨["share", "disclose", "third party", "partners"], "sharing", 2⟩,
  ⟨["cookie", "tracking", "analytics"], "tracking", 3⟩,
  ⟨["delete", "remove", "right", "access"], "rights", 4⟩,
  ⟨["secure", "protect", "encryption"], "security", 5⟩,
  ⟨["retain", "keep", "store"], "retention", 6⟩,
  ⟨["arbitration", "dispute", "legal"], "dispute", 7⟩,
  ⟨["license", "content", "intellectual"], "license", 8⟩]

/-- The items one keyword topic pushes: up to two sentences containing one
of its terms, simplified; `base` is the number of items already pushed, so
`fresh (base + i)` models the `Date.now() + Math.random()` suffix of the
i-th push. -/
def summaryItemsFor (sentences : List String) (keyword : SummaryKeyword)
    (fresh : Nat → String) (base : Nat) : List SummaryItem :=
  let relevantSentences := (sentences.filter (fun sentence =>
    keyword.terms.any (fun term => strIncludes (strToLower sentence) term))).take 2
  relevantSentences.enum.map (fun p =>
    { id := keyword.id ++ "_" ++ fresh (base + p.fst)
      text := simplifyLanguage p.snd.trim
      priority := keyword.priority
      evidence := [] })

/-- The summarizer's `keywordSentences` accumulation: split into
sentences, keep those longer than 20 characters once trimmed, and push
the items of each keyword topic in table order. -/
def collectKeywordSentences (content : String) (fresh : Nat → String) :
    List SummaryItem :=
  let sentences := (splitSentences content).filter (fun s => 20 < s.trim.length)
  importantKeywords.foldl
    (fun acc keyword => acc ++ summaryItemsFor sentences keyword fresh acc.length) []

/-- Projection of a summary item to the data the sort inspects and the
determinism claim compares: text and priority. -/
def textPriority (i : SummaryItem) : String × Nat :=
  (i.text, i.priority)

/-- Stable insertion into a priority-sorted list: an element moves past
exactly the items of strictly smaller priority, so ties keep encounter
order. -/
def insertByPriority (x : SummaryItem) : List SummaryItem → List SummaryItem
  | [] => [x]
  | y :: ys =>
    if x.priority ≤ y.priority then x :: y :: ys else y :: insertByPriority x ys

/-- Stable sort by ascending priority, the behaviour of
`Array.prototype.sort` with the comparator
`(a, b) => (a.priority || 0) - (b.priority || 0)`. -/
def sortByPriority : List SummaryItem → List SummaryItem
  | [] => []
  | x :: xs => insertByPriority x (sortByPriority xs)

/-- `generateSummary`: collect, stable-sort by priority, keep the first
eight. -/
def generateSummary (content : String) (fresh : Nat → String) :
    List SummaryItem :=
  (sortByPriority (collectKeywordSentences content fresh)).take 8

/-- First pattern (in declared order) with a match, with its index and
length — the loop inside `findEvidence`. -/
def firstMatch (content : String) : List RE → Option (Nat × Nat)
  | [] => none
  | p :: ps =>
    match searchFrom p none content.toList 0 with
    | some r => some r
    | none => firstMatch content ps

/-- `findEvidence`: 50 characters of context on each side of the first
match, clamped to the document, trimmed; a fixed fallback string when no
pattern produces a match. -/
def findEvidence (content : String) (patterns : List RE) : String :=
  match firstMatch content patterns with
  | some (idx, len) =>
    let cs := content.toList
    let start := idx - 50
    let stop := min cs.length (idx + len + 50)
    (String.mk ((cs.drop start).take (stop - start))).trim
  | none => "Evidence found in policy text"

/-- `detectRedFlags`: the five flag kinds in fixed order, the data-selling
kind suppressed by the explicit-denial override, truncated to five. -/
def detectRedFlags (content : String) : List RedFlag :=
  let hasDataSelling := reTestAny initializePatterns.dataSelling content
  let explicitlyDenies := reTest explicitDenialRe content
  let flags :=
    (if hasDataSelling && !explicitlyDenies then
      [{ id := "data-selling", title := "May sell your data", severity := 5,
         evidence := findEvidence content initializePatterns.dataSelling,
         whatItMeans := "This company may sell or share your personal information with third parties for profit." }]
     else []) ++
    (if reTestAny initializePatterns.arbitration content then
      [{ id := "arbitration", title := "Mandatory arbitration", severity := 4,
         evidence := findEvidence content initializePatterns.arbitration,
         whatItMeans := "You give up your right to sue or join class action lawsuits." }]
     else []) ++
    (if reTestAny initializePatterns.license content then
      [{ id := "broad-license", title := "Broad license to your content", severity := 3,
         evidence := findEvidence content initializePatterns.license,
         whatItMeans := "The company gets extensive rights to use, modify, and share your content." }]
     else []) ++
    (if reTestAny initializePatterns.retention content then
      [{ id := "indefinite-retention", title := "Keeps data indefinitely", severity := 4,
         evidence := findEvidence content initializePatterns.retention,
         whatItMeans := "Your data may be stored forever without clear deletion policies." }]
     else []) ++
    (if reTestAny initializePatterns.fingerprinting content then
      [{ id := "fingerprinting", title := "Device fingerprinting", severity := 3,
         evidence := findEvidence content initializePatterns.fingerprinting,
         whatItMeans := "Uses advanced tracking techniques that are hard to block." }]
     else [])
  flags.take 5

/-- The scorer's clamp `Math.max(0, Math.min(100, v))`. -/
def clamp (x : Int) : Int := max 0 (min 100 x)

/-- The fixed weight table field names. -/
structure ScoringWeights where
  collection : ℚ
  sharingSelling : ℚ
  rights : ℚ
  retention : ℚ
  dispute : ℚ
  license : ℚ
  tracking : ℚ
  children : ℚ
  security : ℚ

/-- The constructor's `scoringWeights` table.  (The nine weights sum to
`1.05`, not `1.0`.) -/
def scoringWeights : ScoringWeights where
  collection := 15 / 100
  sharingSelling := 20 / 100
  rights := 15 / 100
  retention := 10 / 100
  dispute := 15 / 100
  license := 10 / 100
  tracking := 10 / 100
  children := 25 / 1000
  security := 75 / 1000

/-- The confidence heuristic's fixed vocabulary list `policyTerms`. -/
def policyTerms : List String :=
  ["privacy", "data", "information", "collect", "use", "share"]

/-- `foundTerms`: how many vocabulary terms occur (case-insensitive
substring) in the text. -/
def foundTermsCount (content : String) : Nat :=
  (policyTerms.filter (fun term => strIncludes (strToLower content) term)).length

/-- `calculateConfidence`: 0.5 base, +0.2 beyond 5000 characters, +0.1
beyond 10000, +0.3 scaled by vocabulary coverage, capped at 1. -/
def calculateConfidence (content : String) : ℚ :=
  let confidence : ℚ := 5 / 10
  let confidence := if 5000 < content.length then confidence + 2 / 10 else confidence
  let confidence := if 10000 < content.length then confidence + 1 / 10 else confidence
  let confidence :=
    confidence + ((foundTermsCount content : ℚ) / (policyTerms.length : ℚ)) * (3 / 10)
  min 1 confidence

/-- `calculateScores`: neutral baseline 50 per dimension, fixed deltas on
pattern matches, positive boosts, a single clamp pass, then the weighted
rounded aggregate and the confidence. -/
def calculateScores (content : String) : Scores :=
  let baseScore : Int := 50
  let sharingSelling :=
    if reTestAny initializePatterns.dataSelling content then baseScore - 30 else baseScore
  let dispute :=
    if reTestAny initializePatterns.arbitration content then baseScore - 25 else baseScore
  let rights :=
    if reTestAny initializePatterns.rights content then baseScore + 20 else baseScore
  let security :=
    if reTestAny initializePatterns.security content then baseScore + 15 else baseScore
  let tracking :=
    if reTestAny initializePatterns.fingerprinting content then baseScore - 20 else baseScore
  let license :=
    if reTestAny initializePatterns.license content then baseScore - 20 else baseScore
  let retention :=
    if reTestAny initializePatterns.retention content then baseScore - 25 else baseScore
  let hasGdpr := reTest gdprCcpaRe content
  let rights := if hasGdpr then rights + 15 else rights
  let collection := if hasGdpr then baseScore + 10 else baseScore
  let rights := if reTest optOutRe content then rights + 10 else rights
  let children := baseScore
  let collection := clamp collection
  let sharingSelling := clamp sharingSelling
  let rights := clamp rights
  let retention := clamp retention
  let dispute := clamp dispute
  let license := clamp license
  let tracking := clamp tracking
  let children := clamp children
  let security := clamp security
  let aggregate := round (
    (collection : ℚ) * scoringWeights.collection
    + (sharingSelling : ℚ) * scoringWeights.sharingSelling
    + (rights : ℚ) * scoringWeights.rights
    + (retention : ℚ) * scoringWeights.retention
    + (dispute : ℚ) * scoringWeights.dispute
    + (license : ℚ) * scoringWeights.license
    + (tracking : ℚ) * scoringWeights.tracking
    + (children : ℚ) * scoringWeights.children
    + (security : ℚ) * scoringWeights.security)
  { collection := collection, sharingSelling := sharingSelling, rights := rights,
    retention := retention, dispute := dispute, license := license,
    tracking := tracking, children := children, security := security,
    aggregate := aggregate, confidence := calculateConfidence content }

/-- Wrap an integer to JavaScript 32-bit signed semantics (`hash & hash`
and `<< 5` both coerce through ToInt32). -/
def toInt32 (n : Int) : Int := (n + 2 ^ 31) % 2 ^ 32 - 2 ^ 31

/-- Lower-case hexadecimal rendering, as `Number.prototype.toString(16)`
for a non-negative integer. -/
def natToHex (n : Nat) : String := String.mk (Nat.toDigits 16 n)

/-- `simpleHash`: the 32-bit rolling hash `hash = (hash << 5) - hash + c`,
rendered as `simple-<hex>` of the absolute value. -/
def simpleHash (str : String) : String :=
  let hash := str.toList.foldl
    (fun hash c => toInt32 (toInt32 (hash * 32) - hash + (c.toNat : Int))) 0
  "simple-" ++ natToHex hash.natAbs

/-- `analyze`: assembles the result envelope from the three stages.  The
wall-clock `retrievedAt` timestamp and the summarizer's nondeterministic
identifier suffixes are passed in explicitly. -/
def analyze (content : PolicyContent) (url : String)
    (retrievedAt : String) (fresh : Nat → String) : AnalysisResult :=
  let text := content.content.getD ""
  { url := url
    retrievedAt := retrievedAt
    contentHash := simpleHash text
    language := "en"
    summary := generateSummary text fresh
    redFlags := detectRedFlags text
    scores := calculateScores text }

/-- Test fixture: a document longer than 10000 characters containing all
six confidence vocabulary terms. -/
def bigDoc : String :=
  "privacy data information collect use share " ++
    String.mk (List.replicate 12000 'a')

/-! ### Helper lemmas about the scorer -/

theorem clamp_nonneg (x : Int) : 0 ≤ clamp x := le_max_left 0 _

theorem clamp_le_100 (x : Int) : clamp x ≤ 100 :=
  max_le (by norm_num) (min_le_left _ _)

theorem clamp_le_of_le {x c : Int} (hx : x ≤ c) (hc : 0 ≤ c) : clamp x ≤ c :=
  max_le hc (le_trans (min_le_right _ _) hx)

theorem round_range {q : ℚ} (h0 : 0 ≤ q) (h1 : q ≤ 95) :
    0 ≤ round q ∧ round q ≤ 100 := by
  rw [round_eq]
  constructor
  · exact Int.le_floor.mpr (by push_cast; linarith)
  · have : ⌊q + 1 / 2⌋ < (101 : ℤ) := Int.floor_lt.mpr (by push_cast; linarith)
    omega

theorem calculateScores_collection (content : String) :
    (calculateScores content).collection =
      clamp (50 + (if reTest gdprCcpaRe content then 10 else 0)) := by
  simp only [calculateScores]
  split_ifs <;> norm_num

theorem calculateScores_sharingSelling (content : String) :
    (calculateScores content).sharingSelling =
      clamp (50 + (if reTestAny initializePatterns.dataSelling content then -30 else 0)) := by
  simp only [calculateScores]
  split_ifs <;> norm_num

theorem calculateScores_rights (content : String) :
    (calculateScores content).rights =
      clamp (50 + (if reTestAny initializePatterns.rights content then 20 else 0)
        + (if reTest gdprCcpaRe content then 15 else 0)
        + (if reTest optOutRe content then 10 else 0)) := by
  simp only [calculateScores]
  split_ifs <;> norm_num

theorem calculateScores_retention (content : String) :
    (calculateScores content).retention =
      clamp (50 + (if reTestAny initializePatterns.retention content then -25 else 0)) := by
  simp only [calculateScores]
  split_ifs <;> norm_num

theorem calculateScores_dispute (content : String) :
    (calculateScores content).dispute =
      clamp (50 + (if reTestAny initializePatterns.arbitration content then -25 else 0)) := by
  simp only [calculateScores]
  split_ifs <;> norm_num

theorem calculateScores_license (content : String) :
    (calculateScores content).license =
      clamp (50 + (if reTestAny initializePatterns.license content then -20 else 0)) := by
  simp only [calculateScores]
  split_ifs <;> norm_num

theorem calculateScores_tracking (content : String) :
    (calculateScores content).tracking =
      clamp (50 + (if reTestAny initializePatterns.fingerprinting content then -20 else 0)) := by
  simp only [calculateScores]
  split_ifs <;> norm_num

theorem calculateScores_children (content : String) :
    (calculateScores content).children = 50 := by
  simp only [calculateScores]
  norm_num [clamp]

theorem calculateScores_security (content : String) :
    (calculateScores content).security =
      clamp (50 + (if reTestAny initializePatterns.security content then 15 else 0)) := by
  simp only [calculateScores]
  split_ifs <;> norm_num

theorem calculateScores_aggregate (content : String) :
    (calculateScores content).aggregate = round (
      ((calculateScores content).collection : ℚ) * scoringWeights.collection
      + ((calculateScores content).sharingSelling : ℚ) * scoringWeights.sharingSelling
      + ((calculateScores content).rights : ℚ) * scoringWeights.rights
      + ((calculateScores content).retention : ℚ) * scoringWeights.retention
      + ((calculateScores content).dispute : ℚ) * scoringWeights.dispute
      + ((calculateScores content).license : ℚ) * scoringWeights.license
      + ((calculateScores content).tracking : ℚ) * scoringWeights.tracking
      + ((calculateScores content).children : ℚ) * scoringWeights.children
      + ((calculateScores content).security : ℚ) * scoringWeights.security) := by
  simp only [calculateScores]

theorem calculateScores_confidence (content : String) :
    (calculateScores content).confidence = calculateConfidence content := by
  simp only [calculateScores]

theorem calculateConfidence_ge_half (content : String) :
    1 / 2 ≤ calculateConfidence content := by
  simp only [calculateConfidence]
  refine le_min (by norm_num) ?_
  have h1 : (0 : ℚ) ≤
      ((foundTermsCount content : ℚ) / (policyTerms.length : ℚ)) * (3 / 10) := by
    positivity
  split_ifs <;> linarith

theorem calculateConfidence_le_one (content : String) :
    calculateConfidence content ≤ 1 := by
  simp only [calculateConfidence]
  exact min_le_left _ _

/-! ### Helper lemmas about the red-flag detector -/

theorem ite_singleton_sublist {α : Type} (b : Prop) [Decidable b] (x : α) :
    List.Sublist (if b then [x] else []) [x] := by
  split
  · exact List.Sublist.refl _
  · exact List.nil_sublist _

theorem dataSelling_mem_iff (content : String) :
    "data-selling" ∈ (detectRedFlags content).map RedFlag.id ↔
      (reTestAny initializePatterns.dataSelling content = true ∧
       reTest explicitDenialRe content = false) := by
  simp only [detectRedFlags]
  split_ifs with h1 h2 h3 h4 h5 <;>
    simp_all [Bool.and_eq_true, Bool.not_eq_true']

theorem detectRedFlags_ids_sublist (content : String) :
    List.Sublist ((detectRedFlags content).map RedFlag.id)
      ["data-selling", "arbitration", "broad-license", "indefinite-retention",
       "fingerprinting"] := by
  simp only [detectRedFlags]
  split_ifs <;> first
    | (simp; decide)
    | simp

/-! ### Helper lemmas about the summarizer -/

theorem map_tp_enumFrom (g : Nat × String → SummaryItem) (f : String → String × Nat)
    (hg : ∀ p, textPriority (g p) = f p.snd) :
    ∀ (n : Nat) (l : List String),
      ((List.enumFrom n l).map fun p => textPriority (g p)) = l.map f := by
  intro n l
  induction l generalizing n with
  | nil => rfl
  | cons a t ih =>
    simp only [List.enumFrom, List.map_cons, ih]
    rw [hg]

theorem summaryItemsFor_map_tp (sentences : List String)
    (keyword : SummaryKeyword) (fresh : Nat → String) (base : Nat) :
    (summaryItemsFor sentences keyword fresh base).map textPriority =
      ((sentences.filter (fun sentence =>
        keyword.terms.any (fun term => strIncludes (strToLower sentence) term))).take 2).map
          (fun sentence => (simplifyLanguage sentence.trim, keyword.priority)) := by
  simp only [summaryItemsFor, List.map_map, Function.comp_def]
  exact map_tp_enumFrom _ _ (fun p => rfl) 0 _

theorem foldl_push_map_tp (sentences : List String) (f1 f2 : Nat → String) :
    ∀ (kws : List SummaryKeyword) (acc1 acc2 : List SummaryItem),
      acc1.map textPriority = acc2.map textPriority →
      ((kws.foldl (fun acc keyword =>
          acc ++ summaryItemsFor sentences keyword f1 acc.length) acc1).map textPriority) =
        ((kws.foldl (fun acc keyword =>
          acc ++ summaryItemsFor sentences keyword f2 acc.length) acc2).map textPriority) := by
  intro kws
  induction kws with
  | nil => intro acc1 acc2 h; simpa using h
  | cons kw kws ih =>
    intro acc1 acc2 h
    simp only [List.foldl_cons]
    refine ih _ _ ?_
    rw [List.map_append, List.map_append, h,
      summaryItemsFor_map_tp, summaryItemsFor_map_tp]

theorem collectKeywordSentences_map_tp (content : String) (f1 f2 : Nat → String) :
    (collectKeywordSentences content f1).map textPriority =
      (collectKeywordSentences content f2).map textPriority := by
  simp only [collectKeywordSentences]
  exact foldl_push_map_tp _ f1 f2 importantKeywords [] [] rfl

theorem insertByPriority_map_tp {x1 x2 : SummaryItem} :
    ∀ {l1 l2 : List SummaryItem},
      textPriority x1 = textPriority x2 →
      l1.map textPriority = l2.map textPriority →
      (insertByPriority x1 l1).map textPriority =
        (insertByPriority x2 l2).map textPriority := by
  intro l1
  induction l1 with
  | nil =>
    intro l2 hx hl
    cases l2 with
    | nil => simp [insertByPriority, hx]
    | cons b bs => simp at hl
  | cons a as ih =>
    intro l2 hx hl
    cases l2 with
    | nil => simp at hl
    | cons b bs =>
      simp only [List.map_cons, List.cons.injEq] at hl
      obtain ⟨hab, hrest⟩ := hl
      have hp : x1.priority = x2.priority := congrArg Prod.snd hx
      have hap : a.priority = b.priority := congrArg Prod.snd hab
      simp only [insertByPriority]
      by_cases hc : x1.priority ≤ a.priority
      · rw [if_pos hc, if_pos (by rw [← hp, ← hap]; exact hc)]
        simp only [List.map_cons]
        rw [hx, hab, hrest]
      · rw [if_neg hc, if_neg (by rw [← hp, ← hap]; exact hc)]
        simp only [List.map_cons]
        rw [hab, ih hx hrest]

theorem sortByPriority_map_tp : ∀ {l1 l2 : List SummaryItem},
    l1.map textPriority = l2.map textPriority →
    (sortByPriority l1).map textPriority = (sortByPriority l2).map textPriority := by
  intro l1
  induction l1 with
  | nil =>
    intro l2 h
    cases l2 with
    | nil => rfl
    | cons b bs => simp at h
  | cons a as ih =>
    intro l2 h
    cases l2 with
    | nil => simp at h
    | cons b bs =>
      simp only [List.map_cons, List.cons.injEq] at h
      obtain ⟨hab, hrest⟩ := h
      simp only [sortByPriority]
      exact insertByPriority_map_tp hab (ih hrest)

theorem mem_insertByPriority {x z : SummaryItem} :
    ∀ {l : List SummaryItem}, z ∈ insertByPriority x l → z = x ∨ z ∈ l := by
  intro l
  induction l with
  | nil =>
    intro h
    simp only [insertByPriority, List.mem_singleton] at h
    exact Or.inl h
  | cons y ys ih =>
    intro h
    simp only [insertByPriority] at h
    split at h
    · rcases List.mem_cons.mp h with h1 | h2
      · exact Or.inl h1
      · exact Or.inr h2
    · rcases List.mem_cons.mp h with h1 | h2
      · exact Or.inr (h1 ▸ List.mem_cons_self y ys)
      · rcases ih h2 with h3 | h4
        · exact Or.inl h3
        · exact Or.inr (List.mem_cons_of_mem y h4)

theorem pairwise_insertByPriority {x : SummaryItem} :
    ∀ {l : List SummaryItem},
      List.Pairwise (fun a b => a.priority ≤ b.priority) l →
      List.Pairwise (fun a b => a.priority ≤ b.priority) (insertByPriority x l) := by
  intro l hl
  induction l with
  | nil => simp [insertByPriority]
  | cons y ys ih =>
    rcases List.pairwise_cons.mp hl with ⟨hy, hys⟩
    simp only [insertByPriority]
    split
    · rename_i hc
      refine List.pairwise_cons.mpr ⟨?_, hl⟩
      intro z hz
      rcases List.mem_cons.mp hz with rfl | hz2
      · exact hc
      · exact le_trans hc (hy z hz2)
    · rename_i hc
      refine List.pairwise_cons.mpr ⟨?_, ih hys⟩
      intro z hz
      rcases mem_insertByPriority hz with rfl | hz2
      · exact le_of_not_le hc
      · exact hy z hz2

theorem pairwise_sortByPriority (l : List SummaryItem) :
    List.Pairwise (fun a b => a.priority ≤ b.priority) (sortByPriority l) := by
  induction l with
  | nil => simp [sortByPriority]
  | cons a as ih => exact pairwise_insertByPriority ih

theorem filter_insertByPriority (p : Nat) (x : SummaryItem) :
    ∀ (l : List SummaryItem),
      (insertByPriority x l).filter (fun i => i.priority == p) =
        (x :: l).filter (fun i => i.priority == p) := by
  intro l
  induction l with
  | nil => rfl
  | cons y ys ih =>
    simp only [insertByPriority]
    split
    · rfl
    · rename_i hc
      have hxy : ¬(x.priority = p ∧ y.priority = p) := by
        rintro ⟨h1, h2⟩
        exact hc (by rw [h1, h2])
      by_cases hx : x.priority = p <;> by_cases hy : y.priority = p
      · exact absurd ⟨hx, hy⟩ hxy
      · simp [List.filter_cons, hx, hy, ih]
      · simp [List.filter_cons, hx, hy, ih]
      · simp [List.filter_cons, hx, hy, ih]

theorem filter_sortByPriority (p : Nat) :
    ∀ (l : List SummaryItem),
      (sortByPriority l).filter (fun i => i.priority == p) =
        l.filter (fun i => i.priority == p) := by
  intro l
  induction l with
  | nil => rfl
  | cons a as ih =>
    simp only [sortByPriority]
    rw [filter_insertByPriority]
    simp [List.filter_cons, ih]

/-! ### Claims -/

/-- C1: for every input text, every one of the 9 score dimensions returned
by `calculateScores` (collection, sharingSelling, rights, retention,
dispute, license, tracking, children, security) is in [0,100], the
aggregate is in [0,100], and the confidence is in [0,1]. -/
theorem C1_score_bounds (content : String) :
    (0 ≤ (calculateScores content).collection ∧ (calculateScores content).collection ≤ 100) ∧
    (0 ≤ (calculateScores content).sharingSelling ∧
      (calculateScores content).sharingSelling ≤ 100) ∧
    (0 ≤ (calculateScores content).rights ∧ (calculateScores content).rights ≤ 100) ∧
    (0 ≤ (calculateScores content).retention ∧ (calculateScores content).retention ≤ 100) ∧
    (0 ≤ (calculateScores content).dispute ∧ (calculateScores content).dispute ≤ 100) ∧
    (0 ≤ (calculateScores content).license ∧ (calculateScores content).license ≤ 100) ∧
    (0 ≤ (calculateScores content).tracking ∧ (calculateScores content).tracking ≤ 100) ∧
    (0 ≤ (calculateScores content).children ∧ (calculateScores content).children ≤ 100) ∧
    (0 ≤ (calculateScores content).security ∧ (calculateScores content).security ≤ 100) ∧
    (0 ≤ (calculateScores content).aggregate ∧ (calculateScores content).aggregate ≤ 100) ∧
    (0 ≤ (calculateScores content).confidence ∧ (calculateScores content).confidence ≤ 1) := by
  have hcol := calculateScores_collection content
  have hss := calculateScores_sharingSelling content
  have hri := calculateScores_rights content
  have hre := calculateScores_retention content
  have hdi := calculateScores_dispute content
  have hli := calculateScores_license content
  have htr := calculateScores_tracking content
  have hch := calculateScores_children content
  have hse := calculateScores_security content
  refine ⟨⟨?_, ?_⟩, ⟨?_, ?_⟩, ⟨?_, ?_⟩, ⟨?_, ?_⟩, ⟨?_, ?_⟩, ⟨?_, ?_⟩, ⟨?_, ?_⟩,
    ⟨?_, ?_⟩, ⟨?_, ?_⟩, ?_, ?_⟩
  · rw [hcol]; exact clamp_nonneg _
  · rw [hcol]; exact clamp_le_100 _
  · rw [hss]; exact clamp_nonneg _
  · rw [hss]; exact clamp_le_100 _
  · rw [hri]; exact clamp_nonneg _
  · rw [hri]; exact clamp_le_100 _
  · rw [hre]; exact clamp_nonneg _
  · rw [hre]; exact clamp_le_100 _
  · rw [hdi]; exact clamp_nonneg _
  · rw [hdi]; exact clamp_le_100 _
  · rw [hli]; exact clamp_nonneg _
  · rw [hli]; exact clamp_le_100 _
  · rw [htr]; exact clamp_nonneg _
  · rw [htr]; exact clamp_le_100 _
  · rw [hch]; norm_num
  · rw [hch]; norm_num
  · rw [hse]; exact clamp_nonneg _
  · rw [hse]; exact clamp_le_100 _
  · -- the aggregate: the weighted sum lies in [0, 95] because
    -- sharingSelling never exceeds 50, so rounding keeps it in [0, 100]
    have q1 : (0 : ℚ) ≤ ((calculateScores content).collection : ℚ) := by
      rw [hcol]; exact_mod_cast clamp_nonneg _
    have q2 : ((calculateScores content).collection : ℚ) ≤ 100 := by
      rw [hcol]; exact_mod_cast clamp_le_100 _
    have q3 : (0 : ℚ) ≤ ((calculateScores content).sharingSelling : ℚ) := by
      rw [hss]; exact_mod_cast clamp_nonneg _
    have i4 : (calculateScores content).sharingSelling ≤ (50 : ℤ) := by
      rw [hss]
      refine clamp_le_of_le ?_ (by omega)
      split_ifs <;> omega
    have q4 : ((calculateScores content).sharingSelling : ℚ) ≤ 50 := by
      exact_mod_cast i4
    have q5 : (0 : ℚ) ≤ ((calculateScores content).rights : ℚ) := by
      rw [hri]; exact_mod_cast clamp_nonneg _
    have q6 : ((calculateScores content).rights : ℚ) ≤ 100 := by
      rw [hri]; exact_mod_cast clamp_le_100 _
    have q7 : (0 : ℚ) ≤ ((calculateScores content).retention : ℚ) := by
      rw [hre]; exact_mod_cast clamp_nonneg _
    have q8 : ((calculateScores content).retention : ℚ) ≤ 100 := by
      rw [hre]; exact_mod_cast clamp_le_100 _
    have q9 : (0 : ℚ) ≤ ((calculateScores content).dispute : ℚ) := by
      rw [hdi]; exact_mod_cast clamp_nonneg _
    have q10 : ((calculateScores content).dispute : ℚ) ≤ 100 := by
      rw [hdi]; exact_mod_cast clamp_le_100 _
    have q11 : (0 : ℚ) ≤ ((calculateScores content).license : ℚ) := by
      rw [hli]; exact_mod_cast clamp_nonneg _
    have q12 : ((calculateScores content).license : ℚ) ≤ 100 := by
      rw [hli]; exact_mod_cast clamp_le_100 _
    have q13 : (0 : ℚ) ≤ ((calculateScores content).tracking : ℚ) := by
      rw [htr]; exact_mod_cast clamp_nonneg _
    have q14 : ((calculateScores content).tracking : ℚ) ≤ 100 := by
      rw [htr]; exact_mod_cast clamp_le_100 _
    have q15 : (0 : ℚ) ≤ ((calculateScores content).children : ℚ) := by
      rw [hch]; norm_num
    have q16 : ((calculateScores content).children : ℚ) ≤ 100 := by
      rw [hch]; norm_num
    have q17 : (0 : ℚ) ≤ ((calculateScores content).security : ℚ) := by
      rw [hse]; exact_mod_cast clamp_nonneg _
    have q18 : ((calculateScores content).security : ℚ) ≤ 100 := by
      rw [hse]; exact_mod_cast clamp_le_100 _
    rw [calculateScores_aggregate content]
    exact round_range (by simp only [scoringWeights]; linarith)
      (by simp only [scoringWeights]; linarith)
  · rw [calculateScores_confidence content]
    exact ⟨le_trans (by norm_num) (calculateConfidence_ge_half content),
      calculateConfidence_le_one content⟩

/-- C2: for every input text, each score dimension equals the clamp to
[0,100] of 50 plus the sum of exactly the fixed deltas whose trigger
condition holds for that text (dataSelling → sharingSelling −30;
arbitration → dispute −25; rights → rights +20; security → security +15;
fingerprinting → tracking −20; license → license −20; retention →
retention −25; `GDPR|CCPA|data protection` → rights +15 and collection
+10; `opt.*out|unsubscribe|delete.*account` → rights +10), with the clamp
applied once after all deltas, not per step. -/
theorem C2_score_deltas (content : String) :
    (calculateScores content).collection =
      clamp (50 + (if reTest gdprCcpaRe content then 10 else 0)) ∧
    (calculateScores content).sharingSelling =
      clamp (50 + (if reTestAny initializePatterns.dataSelling content then -30 else 0)) ∧
    (calculateScores content).rights =
      clamp (50 + (if reTestAny initializePatterns.rights content then 20 else 0)
        + (if reTest gdprCcpaRe content then 15 else 0)
        + (if reTest optOutRe content then 10 else 0)) ∧
    (calculateScores content).retention =
      clamp (50 + (if reTestAny initializePatterns.retention content then -25 else 0)) ∧
    (calculateScores content).dispute =
      clamp (50 + (if reTestAny initializePatterns.arbitration content then -25 else 0)) ∧
    (calculateScores content).license =
      clamp (50 + (if reTestAny initializePatterns.license content then -20 else 0)) ∧
    (calculateScores content).tracking =
      clamp (50 + (if reTestAny initializePatterns.fingerprinting content then -20 else 0)) ∧
    (calculateScores content).children = clamp 50 ∧
    (calculateScores content).security =
      clamp (50 + (if reTestAny initializePatterns.security content then 15 else 0)) :=
  ⟨calculateScores_collection content, calculateScores_sharingSelling content,
   calculateScores_rights content, calculateScores_retention content,
   calculateScores_dispute content, calculateScores_license content,
   calculateScores_tracking content,
   by rw [calculateScores_children content]; norm_num [clamp],
   calculateScores_security content⟩

/-- C3: for every input text, `detectRedFlags` emits a data-selling flag
if and only if some dataSelling detector matches the text and the
explicit-denial pattern (`do not sell|will not sell|never sell|don't
sell`, case-insensitive) does not match; in particular, for the text
"We collect your email. We do not sell your personal data to third
parties." the returned flag list contains no entry with id
"data-selling". -/
theorem C3_denial_override :
    (∀ content : String,
      "data-selling" ∈ (detectRedFlags content).map RedFlag.id ↔
        (reTestAny initializePatterns.dataSelling content = true ∧
         reTest explicitDenialRe content = false)) ∧
    "data-selling" ∉ (detectRedFlags
      "We collect your email. We do not sell your personal data to third parties.").map
        RedFlag.id := by
  refine ⟨fun content => dataSelling_mem_iff content, fun hmem => ?_⟩
  have hden : reTest explicitDenialRe
      "We collect your email. We do not sell your personal data to third parties." = true := by
    decide
  have := (dataSelling_mem_iff _).mp hmem
  rw [hden] at this
  exact absurd this.2 (by simp)

/-- C5: for any input whose post-delta dimension vector is sharingSelling
= 20 with all other eight dimensions at the baseline 50, the aggregate
equals `round(50*(.15+.15+.10+.15+.10+.10+.025+.075) + 20*.20) = 47`,
computed from the fixed weight table. -/
theorem C5_aggregate_weighting (content : String)
    (hcol : (calculateScores content).collection = 50)
    (hss : (calculateScores content).sharingSelling = 20)
    (hri : (calculateScores content).rights = 50)
    (hre : (calculateScores content).retention = 50)
    (hdi : (calculateScores content).dispute = 50)
    (hli : (calculateScores content).license = 50)
    (htr : (calculateScores content).tracking = 50)
    (hch : (calculateScores content).children = 50)
    (hse : (calculateScores content).security = 50) :
    (calculateScores content).aggregate = 47 := by
  rw [calculateScores_aggregate content, hcol, hss, hri, hre, hdi, hli, htr, hch, hse]
  norm_num [scoringWeights, round_eq]

/-- Witness for C5: the text "we sell your data" triggers exactly the
dataSelling delta, giving the hypothesised dimension vector. -/
theorem C5_aggregate_weighting_witness :
    (calculateScores "we sell your data").sharingSelling = 20 ∧
    (calculateScores "we sell your data").aggregate = 47 :=
  ⟨by decide,
   C5_aggregate_weighting "we sell your data" (by decide) (by decide) (by decide)
     (by decide) (by decide) (by decide) (by decide) (by decide) (by decide)⟩

/-- C6: for every input text, `calculateConfidence` returns
`min(1.0, 0.5 + (0.2 if length > 5000) + (0.1 if length > 10000) +
0.3 * foundTerms/6)` over the six terms privacy, data, information,
collect, use, share; a document longer than 10000 characters containing
all six terms yields exactly 1.0, and the result is always at least
0.5. -/
theorem C6_confidence_formula (content : String) :
    (calculateConfidence content =
      min 1 ((1 : ℚ) / 2 + (if 5000 < content.length then 2 / 10 else 0)
        + (if 10000 < content.length then 1 / 10 else 0)
        + (3 / 10) * ((foundTermsCount content : ℚ) / 6))) ∧
    1 / 2 ≤ calculateConfidence content ∧
    (10000 < content.length → foundTermsCount content = 6 →
      calculateConfidence content = 1) := by
  have hlen : (policyTerms.length : ℚ) = 6 := by norm_num [policyTerms]
  refine ⟨?_, calculateConfidence_ge_half content, ?_⟩
  · simp only [calculateConfidence, hlen]
    split_ifs <;> ring_nf
  · intro h10 hfound
    have h5 : 5000 < content.length := by omega
    simp only [calculateConfidence, hlen, hfound, if_pos h5, if_pos h10]
    norm_num

/-- Witness for C6: `bigDoc` has 12043 characters and contains all six
vocabulary terms, so its confidence is exactly 1. -/
theorem C6_confidence_formula_witness :
    10000 < bigDoc.length ∧ foundTermsCount bigDoc = 6 ∧
    calculateConfidence bigDoc = 1 := by
  have hd : bigDoc.data =
      "privacy data information collect use share ".data ++
        List.replicate 12000 'a' := rfl
  have h1 : 10000 < bigDoc.length := by
    show 10000 < bigDoc.data.length
    rw [hd, List.length_append, List.length_replicate]
    have : "privacy data information collect use share ".data.length = 43 := by decide
    omega
  have h2 : foundTermsCount bigDoc = 6 := by decide
  exact ⟨h1, h2, (C6_confidence_formula bigDoc).2.2 h1 h2⟩

/-- C9: for every input text in which some dataSelling detector matches
and the explicit-denial pattern also matches anywhere in the document,
`detectRedFlags` returns no data-selling flag, yet `calculateScores`
still subtracts the full 30 from sharingSelling for the same text. -/
theorem C9_denial_suppresses_flag_not_score (content : String)
    (hds : reTestAny initializePatterns.dataSelling content = true)
    (hden : reTest explicitDenialRe content = true) :
    "data-selling" ∉ (detectRedFlags content).map RedFlag.id ∧
    (calculateScores content).sharingSelling = 20 := by
  constructor
  · intro hmem
    have := (dataSelling_mem_iff content).mp hmem
    rw [hden] at this
    exact absurd this.2 (by simp)
  · rw [calculateScores_sharingSelling content, hds]
    norm_num [clamp]

/-- Witness for C9: a text matching both a dataSelling detector
("may sell your data") and the denial pattern ("do not sell"). -/
theorem C9_denial_suppresses_flag_not_score_witness :
    "data-selling" ∉ (detectRedFlags
      "We may sell your data. We do not sell your data.").map RedFlag.id ∧
    (calculateScores "We may sell your data. We do not sell your data.").sharingSelling
      = 20 :=
  C9_denial_suppresses_flag_not_score
    "We may sell your data. We do not sell your data." (by decide) (by decide)

/-- C10: for every input text, the children score dimension equals exactly
50 — no delta, boost, or clamp ever changes it from the baseline, even
though the taxonomy defines children detectors — so it contributes a
constant 50·0.025 = 1.25 to every aggregate. -/
theorem C10_children_constant (content : String) :
    (calculateScores content).children = 50 ∧
    initializePatterns.children ≠ [] ∧
    (calculateScores content).aggregate = round (
      ((calculateScores content).collection : ℚ) * scoringWeights.collection
      + ((calculateScores content).sharingSelling : ℚ) * scoringWeights.sharingSelling
      + ((calculateScores content).rights : ℚ) * scoringWeights.rights
      + ((calculateScores content).retention : ℚ) * scoringWeights.retention
      + ((calculateScores content).dispute : ℚ) * scoringWeights.dispute
      + ((calculateScores content).license : ℚ) * scoringWeights.license
      + ((calculateScores content).tracking : ℚ) * scoringWeights.tracking
      + (5 / 4 : ℚ)
      + ((calculateScores content).security : ℚ) * scoringWeights.security) := by
  refine ⟨calculateScores_children content, by simp [initializePatterns], ?_⟩
  rw [calculateScores_aggregate content, calculateScores_children content]
  congr 1
  simp only [scoringWeights]
  push_cast
  ring

/-- C4: for every fixed input text, any two calls to `analyze` on that
text yield identical scores (all 9 dimensions, aggregate, confidence),
identical redFlags (ids, titles, severities, evidence, order), and
identical summary text content (comparing the text fields, ignoring the
time-based id suffixes, which are modelled by the `fresh` oracle
argument). -/
theorem C4_determinism (content : PolicyContent) (url t1 t2 : String)
    (f1 f2 : Nat → String) :
    (analyze content url t1 f1).scores = (analyze content url t2 f2).scores ∧
    (analyze content url t1 f1).redFlags = (analyze content url t2 f2).redFlags ∧
    (analyze content url t1 f1).summary.map SummaryItem.text =
      (analyze content url t2 f2).summary.map SummaryItem.text := by
  refine ⟨rfl, rfl, ?_⟩
  have h2 := sortByPriority_map_tp
    (collectKeywordSentences_map_tp (content.content.getD "") f1 f2)
  have key : ∀ l : List SummaryItem,
      l.map SummaryItem.text = (l.map textPriority).map Prod.fst := by
    intro l
    rw [List.map_map]
    rfl
  simp only [analyze, generateSummary]
  rw [key, key]
  simp only [List.map_take]
  rw [h2]

/-- C7: for every input text, the summary list has at most 8 items and is
sorted by priority ascending with ties kept in encounter order (it is the
stable sort of the collected items, whose equal-priority runs keep their
encounter order); the redFlags list has at most 5 entries, has pairwise
distinct ids, and preserves the fixed evaluation order data-selling,
arbitration, broad-license, indefinite-retention, fingerprinting. -/
theorem C7_bounded_ordered_outputs (content : String) (fresh : Nat → String) :
    (generateSummary content fresh).length ≤ 8 ∧
    generateSummary content fresh =
      (sortByPriority (collectKeywordSentences content fresh)).take 8 ∧
    List.Pairwise (fun a b => a.priority ≤ b.priority)
      (generateSummary content fresh) ∧
    (∀ p : Nat,
      (sortByPriority (collectKeywordSentences content fresh)).filter
          (fun i => i.priority == p) =
        (collectKeywordSentences content fresh).filter (fun i => i.priority == p)) ∧
    (detectRedFlags content).length ≤ 5 ∧
    ((detectRedFlags content).map RedFlag.id).Nodup ∧
    List.Sublist ((detectRedFlags content).map RedFlag.id)
      ["data-selling", "arbitration", "broad-license", "indefinite-retention",
       "fingerprinting"] := by
  refine ⟨List.length_take_le 8 _, rfl,
    (pairwise_sortByPriority _).sublist (List.take_sublist 8 _),
    fun p => filter_sortByPriority p _, ?_, ?_, detectRedFlags_ids_sublist content⟩
  · simp only [detectRedFlags]
    exact List.length_take_le 5 _
  · exact (by decide :
      (["data-selling", "arbitration", "broad-license", "indefinite-retention",
        "fingerprinting"] : List String).Nodup).sublist
      (detectRedFlags_ids_sublist content)

/-- C8 (claim as stated is false; this is the amended statement): `analyze`
performs no input validation at all — for every content value and every
sourceUrl string, well-formed absolute URL or not, it synchronously
returns a normal `AnalysisResult` echoing the supplied url; no
MalformedInput failure path exists. -/
theorem C8_no_validation (content : PolicyContent) (url retrievedAt : String)
    (fresh : Nat → String) :
    (analyze content url retrievedAt fresh).url = url ∧
    (analyze content url retrievedAt fresh).language = "en" :=
  ⟨rfl, rfl⟩

/-- Counterexample to C8 as stated: with a sourceUrl that is not a
well-formed absolute URL, the analyzer does not fail — it returns an
`AnalysisResult` (echoing that url, with the usual fields) instead of
signalling a MalformedInput error. -/
theorem C8_counterexample :
    (analyze ⟨true, some "We collect your information.", none, "t0"⟩
      "not an absolute url" "2024-01-01T00:00:00Z" (fun _ => "0")).url =
        "not an absolute url" ∧
    (analyze ⟨true, some "We collect your information.", none, "t0"⟩
      "not an absolute url" "2024-01-01T00:00:00Z" (fun _ => "0")).language = "en" :=
  ⟨rfl, rfl⟩

end TCGuard
